import Mathlib

/-!
Verification of the Business-Accounting-App bookkeeping core.

The development shallowly embeds the account commands of
src-tauri/src/commands/accounts.rs (create_account, get_accounts,
update_account) and the schema-migration routine of src-tauri/src/db.rs
(run_migrations), and proves the stated properties about them.

Modelling conventions:
- The SQLite store is a pure state: a list of account rows, a list of
  transaction rows, and the AUTOINCREMENT counter for the next account id.
- Monetary REAL columns are modelled as exact rationals; the core only ever
  writes the literal 0.0 and never computes on balances.
- Operations return the boundary result together with the post-state; every
  error branch of the Rust code returns before any INSERT or UPDATE runs, so
  the post-state on error equals the pre-state.
- Lock acquisition and raw storage faults cannot occur in the pure state;
  the messages those branches construct are embedded separately as string
  functions of the underlying error text.
-/

namespace AccountingApp

/-- An account row of the accounts table. The Rust struct Account carries
id as Option since it is absent until persisted; persisted rows always
have an id, so rows carry it directly. -/
structure Account where
  id : Int
  name : String
  account_type : String
  parent_id : Option Int
  balance : ℚ
  is_active : Bool
deriving DecidableEq, Repr

/-- A row of the transactions table (date is string-encoded, description
optional), as created by the schema in init_db_connection. -/
structure Txn where
  id : Int
  date : String
  amount : ℚ
  debit_account_id : Int
  credit_account_id : Int
  description : Option String
deriving DecidableEq, Repr

/-- The persisted store: accounts table, transactions table, and the
AUTOINCREMENT counter that yields the next fresh account id
(last_insert_rowid after an insert). -/
structure DB where
  accounts : List Account
  transactions : List Txn
  nextId : Int
deriving DecidableEq, Repr

/-- The closed set of valid account types (valid_types in accounts.rs). -/
def validTypes : List String := ["Asset", "Liability", "Equity", "Income", "Expense"]

/-- Error message for an invalid account type in create_account. -/
def invalidAccountTypeMsg (t : String) : String :=
  "Invalid account type: " ++ t ++ ". Must be one of: Asset, Liability, Equity, Income, Expense"

/-- Error message for a missing parent account in create_account. -/
def parentNotFoundMsg : String := "Parent account does not exist"

/-- Error message for a duplicate account name in create_account. -/
def duplicateNameMsg : String := "An account with this name already exists"

/-- Error message for an invalid account type in update_account. -/
def invalidTypeUpdateMsg : String := "Invalid account type"

/-- Error message for deactivating an account with history in update_account. -/
def cannotDeactivateMsg : String := "Cannot deactivate account with transaction history"

/-- SELECT EXISTS(SELECT 1 FROM accounts WHERE id = pid). -/
def parentExists (db : DB) (pid : Int) : Bool :=
  db.accounts.any fun a => a.id == pid

/-- The parent validation of create_account: fails only when a parent_id is
supplied and no account has that id. -/
def parentCheckFails (db : DB) : Option Int → Bool
  | some pid => !(parentExists db pid)
  | none => false

/-- SELECT EXISTS(SELECT 1 FROM accounts WHERE name = n); the TEXT column
compares with the default BINARY collation, i.e. case-sensitively. -/
def nameExists (db : DB) (n : String) : Bool :=
  db.accounts.any fun a => a.name == n

/-- SELECT EXISTS(SELECT 1 FROM transactions WHERE debit_account_id = id OR
credit_account_id = id). -/
def hasTransactions (db : DB) (id : Int) : Bool :=
  db.transactions.any fun t => t.debit_account_id == id || t.credit_account_id == id

/-- create_account from accounts.rs, after the lock is acquired: validate the
type against the closed set, then the parent reference, then name uniqueness,
in that source order; on success insert the new row with balance 0.0 and
is_active 1 and return last_insert_rowid. Every error branch returns before
the INSERT, leaving the store unchanged. -/
def create_account (db : DB) (name account_type : String) (parent_id : Option Int) :
    Except String Int × DB :=
  if !(validTypes.contains account_type) then
    (.error (invalidAccountTypeMsg account_type), db)
  else if parentCheckFails db parent_id then
    (.error parentNotFoundMsg, db)
  else if nameExists db name then
    (.error duplicateNameMsg, db)
  else
    (.ok db.nextId,
     { db with
        accounts := db.accounts ++
          [{ id := db.nextId, name := name, account_type := account_type,
             parent_id := parent_id, balance := 0, is_active := true }],
        nextId := db.nextId + 1 })

/-- get_accounts from accounts.rs, after the lock is acquired: SELECT id,
name, type, parent_id, balance, is_active FROM accounts, a snapshot of the
whole table. -/
def get_accounts (db : DB) : List Account := db.accounts

/-- SQLite error text when the UPDATE trips the UNIQUE constraint on
accounts.name (the schema declares name TEXT NOT NULL UNIQUE plus a unique
index); surfaced verbatim through the map_err at line 156. -/
def uniqueNameViolationMsg : String := "UNIQUE constraint failed: accounts.name"

/-- SQLite error text when the UPDATE trips the parent_id foreign key
(PRAGMA foreign_keys = ON is set at connection startup); surfaced verbatim
through the map_err at line 156. -/
def fkViolationMsg : String := "FOREIGN KEY constraint failed"

/-- UNIQUE(name) violation condition of the UPDATE: some row other than the
one matched by id already carries the new name. Accounts.id is the INTEGER
PRIMARY KEY, so at most one row matches and a row keeping its own name never
conflicts with itself. -/
def updateNameConflict (db : DB) (id : Int) (name : String) : Bool :=
  db.accounts.any fun a => a.id != id && a.name == name

/-- Foreign-key violation condition of the UPDATE: a parent_id is supplied
and no row carries that id (the updated row's own id counts, so an account
may be set as its own parent). -/
def updateParentDangling (db : DB) (parent_id : Option Int) : Bool :=
  match parent_id with
  | some p => !(parentExists db p)
  | none => false

/-- update_account from accounts.rs, after the lock is acquired: validate the
type, then reject is_active = false when the account is the debit or credit
party of any transaction; otherwise run the UPDATE of name, type, parent_id
and is_active (not balance) on the rows with the given id and return the
number of rows the UPDATE touched. The handler re-validates neither name
uniqueness nor parent existence, so the UPDATE statement itself can fail on
the schema's UNIQUE(name) or parent_id foreign-key constraint; SQLite checks
constraints only on rows the statement actually updates, so when no row
matches the id the statement succeeds with count 0 whatever the arguments.
A failed statement is rolled back whole, leaving the store unchanged. When
both constraints are violated at once SQLite reports one of the two errors;
this model reports the name conflict and no theorem relies on that order. -/
def update_account (db : DB) (id : Int) (name account_type : String)
    (parent_id : Option Int) (is_active : Bool) : Except String Nat × DB :=
  if !(validTypes.contains account_type) then
    (.error invalidTypeUpdateMsg, db)
  else if hasTransactions db id && !is_active then
    (.error cannotDeactivateMsg, db)
  else if (db.accounts.any fun a => a.id == id) && updateNameConflict db id name then
    (.error uniqueNameViolationMsg, db)
  else if (db.accounts.any fun a => a.id == id) && updateParentDangling db parent_id then
    (.error fkViolationMsg, db)
  else
    (.ok (db.accounts.countP fun a => a.id == id),
     { db with
        accounts := db.accounts.map fun a =>
          if a.id == id then
            { a with name := name, account_type := account_type,
                     parent_id := parent_id, is_active := is_active }
          else a })

/-- A raw result row of the get_accounts SELECT before decoding into the
Account struct. Only the is_active column is decoded leniently
(row.get(5).unwrap_or(1)); a None here models a column value that cannot be
read as an integer (NULL or wrong type). Decoding failures of the other
columns abort the whole call through the question-mark operator and are not
modelled here. -/
structure RawAccountRow where
  id : Int
  name : String
  account_type : String
  parent_id : Option Int
  balance : ℚ
  is_active_col : Option Int
deriving DecidableEq, Repr

/-- The is_active decoding of get_accounts, line 110 of accounts.rs:
row.get(5).unwrap_or(1) == 1. -/
def decodeIsActive (v : Option Int) : Bool := v.getD 1 == 1

/-- The row-mapping closure of get_accounts (lines 103-112 of accounts.rs). -/
def decodeAccountRow (r : RawAccountRow) : Account :=
  { id := r.id, name := r.name, account_type := r.account_type,
    parent_id := r.parent_id, balance := r.balance,
    is_active := decodeIsActive r.is_active_col }

/-- get_accounts at the raw-row level: each fetched row is decoded by the
query_map closure. -/
def get_accounts_rows (rows : List RawAccountRow) : List Account :=
  rows.map decodeAccountRow

/-! Schema Migration Engine, db.rs run_migrations. -/

/-- Migration-engine state: the persisted PRAGMA user_version counter and
the log of migration scripts executed so far (by index in the engine's
list), standing for the schema. The scripts themselves live outside the
Rust sources; only which ones ran, and in which order, matters here. -/
structure MigState where
  userVersion : Int
  applied : List Nat
deriving DecidableEq, Repr

/-- The number of migration scripts in the db.rs engine's list: one,
the initial-schema file. -/
def dbMigrationCount : Nat := 1

/-- The highest version the db.rs engine knows: it writes
user_version = migrations.len() after applying its list. -/
def dbMaxMigrationVersion : Int := dbMigrationCount

/-- run_migrations from db.rs: read user_version (scriptOk abstracts whether
the batched scripts execute without error); when the counter is below 1,
execute every script in the list in order inside one transaction and set
user_version to the list length, rolling everything back on failure; when
the counter is 1 or more, do nothing at all. -/
def db_run_migrations (scriptOk : Bool) (s : MigState) : Except String MigState :=
  if s.userVersion < 1 then
    if scriptOk then
      .ok { userVersion := dbMaxMigrationVersion,
            applied := s.applied ++ List.range dbMigrationCount }
    else
      .error "Failed to run migration"
  else
    .ok s

/-! Boundary error messages for lock-acquisition and storage faults. -/

/-- Message returned by create_account when the Mutex lock cannot be
acquired: a fixed generic text; the underlying error is only printed to
stderr. -/
def createLockErrMsg (_e : String) : String := "Database error. Please try again."

/-- Message returned by create_account when the INSERT itself fails:
format! embeds the storage error text after a fixed prefix. -/
def createInsertErrMsg (e : String) : String := "Failed to create account: " ++ e

/-- Message returned by get_accounts when the lock cannot be acquired:
e.to_string(), the raw error text itself. -/
def getAccountsLockErrMsg (e : String) : String := e

/-- Message returned by update_account when the lock cannot be acquired:
e.to_string(), the raw error text itself. -/
def updateAccountLockErrMsg (e : String) : String := e

/-- A message contains a given error text verbatim as a substring. -/
def ContainsVerbatim (msg e : String) : Prop := ∃ a b, msg = a ++ e ++ b

/-! Concrete stores used by witnesses and counterexamples. -/

/-- The freshly migrated empty store. -/
def emptyDB : DB := { accounts := [], transactions := [], nextId := 1 }

/-- A store holding one account named Cash. -/
def dbCash : DB :=
  { accounts := [{ id := 1, name := "Cash", account_type := "Asset",
                   parent_id := none, balance := 0, is_active := true }],
    transactions := [], nextId := 2 }

/-- A store with two accounts and one transaction between them. -/
def dbWithTxn : DB :=
  { accounts := [{ id := 1, name := "Cash", account_type := "Asset",
                   parent_id := none, balance := 0, is_active := true },
                 { id := 2, name := "Bank", account_type := "Asset",
                   parent_id := none, balance := 0, is_active := true }],
    transactions := [{ id := 1, date := "2025-01-01", amount := 5,
                       debit_account_id := 1, credit_account_id := 2,
                       description := none }],
    nextId := 3 }

/-- The AUTOINCREMENT invariant of the accounts table: every persisted id is
below the next id the store will hand out. It holds of the fresh store and
every store reachable through create_account. -/
def FreshIds (db : DB) : Prop := ∀ a ∈ db.accounts, a.id < db.nextId

/-! Basic lemmas. -/

theorem string_append_empty (s : String) : s ++ "" = s := by
  cases s with
  | mk data =>
    show String.mk (data ++ []) = String.mk data
    rw [List.append_nil]

theorem freshIds_emptyDB : FreshIds emptyDB := by
  intro a ha
  simp [emptyDB] at ha

theorem create_account_preserves_freshIds (db : DB) (name t : String)
    (pid : Option Int) (hf : FreshIds db) :
    FreshIds (create_account db name t pid).2 := by
  unfold create_account
  split
  · exact hf
  · split
    · exact hf
    · split
      · exact hf
      · intro a ha
        simp only [List.mem_append, List.mem_singleton] at ha
        rcases ha with ha | ha
        · have := hf a ha
          simp only
          omega
        · subst ha
          simp only
          omega

/-! Claim C4. -/

/-- Claim C4: for every input whose account_type string is outside the closed
set Asset, Liability, Equity, Income, Expense, create_account fails with the
InvalidAccountType error and performs no persistence: the store after the
call is exactly the store before it. -/
theorem c4_create_account_invalid_type (db : DB) (name t : String)
    (pid : Option Int) (h : t ∉ validTypes) :
    create_account db name t pid = (.error (invalidAccountTypeMsg t), db) := by
  have hc : validTypes.contains t = false := by simpa using h
  simp [create_account, hc]
  intro ht2
  exact absurd ht2 h

/-- Witness for c4_create_account_invalid_type at the type Bogus on the
empty store. -/
theorem c4_create_account_invalid_type_witness :
    "Bogus" ∉ validTypes ∧
    create_account emptyDB "Ghost" "Bogus" none =
      (.error (invalidAccountTypeMsg "Bogus"), emptyDB) :=
  ⟨by decide,
   c4_create_account_invalid_type emptyDB "Ghost" "Bogus" none (by decide)⟩

/-! Claim C5. -/

/-- Counterexample to claim C5 as stated: on the empty store the supplied
parent_id 999 matches no account, yet create_account with the invalid type
Bogus fails with the InvalidAccountType message, not with ParentNotFound,
because the type check runs first. -/
theorem c5_counterexample :
    (∀ a ∈ emptyDB.accounts, a.id ≠ 999) ∧
    (create_account emptyDB "Ghost" "Bogus" (some 999)).1 =
      .error (invalidAccountTypeMsg "Bogus") ∧
    invalidAccountTypeMsg "Bogus" ≠ parentNotFoundMsg :=
  ⟨by decide, rfl, by decide⟩

/-- Claim C5 (amended): for every supplied parent_id value that equals no
existing account's id, create_account with a valid account_type fails with
the ParentNotFound error and performs no persistence; with an invalid
account_type the InvalidAccountType check fires first instead. -/
theorem c5_create_account_parent_not_found (db : DB) (name t : String)
    (pid : Int) (ht : t ∈ validTypes) (hp : ∀ a ∈ db.accounts, a.id ≠ pid) :
    create_account db name t (some pid) = (.error parentNotFoundMsg, db) := by
  have hc : validTypes.contains t = true := by simpa using ht
  have hpe : parentExists db pid = false := by
    simp only [parentExists, List.any_eq_false]
    intro a ha
    simpa using hp a ha
  simp [create_account, hc, parentCheckFails, hpe]
  intro h2
  exact absurd ht h2

/-- Witness for c5_create_account_parent_not_found: parent_id 999 on the
empty store with the valid type Asset. -/
theorem c5_create_account_parent_not_found_witness :
    "Asset" ∈ validTypes ∧ (∀ a ∈ emptyDB.accounts, a.id ≠ 999) ∧
    create_account emptyDB "Ghost" "Asset" (some 999) =
      (.error parentNotFoundMsg, emptyDB) :=
  ⟨by decide, by decide,
   c5_create_account_parent_not_found emptyDB "Ghost" "Asset" 999
     (by decide) (by decide)⟩

/-! Claim C3. -/

/-- Counterexample to claim C3 as stated: the store dbCash already holds an
account named Cash, yet create_account with that name and the invalid type
Bogus fails with the InvalidAccountType message, not with DuplicateName,
because the type check runs first. -/
theorem c3_counterexample :
    nameExists dbCash "Cash" = true ∧
    (create_account dbCash "Cash" "Bogus" none).1 =
      .error (invalidAccountTypeMsg "Bogus") ∧
    invalidAccountTypeMsg "Bogus" ≠ duplicateNameMsg :=
  ⟨rfl, rfl, by decide⟩

/-- Claim C3 (amended): when an account with the given name already exists
(compared case-sensitively on the stored string), create_account with that
name, a valid account_type and a parent_id that is absent or references an
existing account fails with the DuplicateName error, and the store - in
particular the pre-existing account's record - is unchanged; with an invalid
type or a dangling parent_id the earlier check fires first instead. -/
theorem c3_create_account_duplicate_name (db : DB) (name t : String)
    (pid : Option Int) (ht : t ∈ validTypes)
    (hp : ∀ p, pid = some p → ∃ a ∈ db.accounts, a.id = p)
    (hn : ∃ a ∈ db.accounts, a.name = name) :
    create_account db name t pid = (.error duplicateNameMsg, db) := by
  have hc : validTypes.contains t = true := by simpa using ht
  have hpc : parentCheckFails db pid = false := by
    cases pid with
    | none => rfl
    | some p =>
      obtain ⟨a, ha, hid⟩ := hp p rfl
      have : parentExists db p = true := by
        simp only [parentExists, List.any_eq_true]
        exact ⟨a, ha, by simpa using hid⟩
      simp [parentCheckFails, this]
  have hne : nameExists db name = true := by
    obtain ⟨a, ha, hname⟩ := hn
    simp only [nameExists, List.any_eq_true]
    exact ⟨a, ha, by simpa using hname⟩
  simp [create_account, hc, hpc, hne]
  intro h2
  exact absurd ht h2

/-- Witness for c3_create_account_duplicate_name: a second account named
Cash, with the valid type Liability, on the store that already holds Cash. -/
theorem c3_create_account_duplicate_name_witness :
    "Liability" ∈ validTypes ∧ (∃ a ∈ dbCash.accounts, a.name = "Cash") ∧
    create_account dbCash "Cash" "Liability" none =
      (.error duplicateNameMsg, dbCash) :=
  ⟨by decide, by decide,
   c3_create_account_duplicate_name dbCash "Cash" "Liability" none
     (by decide) (fun p h => nomatch h) (by decide)⟩

/-! Claim C1. -/

/-- Counterexample to claim C1 as stated: account 1 of dbWithTxn is the
debit party of a transaction, yet update_account with is_active = false and
the invalid type Bogus fails with the InvalidAccountType message, not with
CannotDeactivateWithHistory, because the type check runs first. -/
theorem c1_counterexample :
    hasTransactions dbWithTxn 1 = true ∧
    (update_account dbWithTxn 1 "Cash" "Bogus" none false).1 =
      .error invalidTypeUpdateMsg ∧
    invalidTypeUpdateMsg ≠ cannotDeactivateMsg :=
  ⟨rfl, rfl, by decide⟩

/-- Claim C1 (amended): for every account that is the debit or credit party
of at least one transaction row, update_account with is_active = false and a
valid account_type fails with the CannotDeactivateWithHistory error and
leaves the store - in particular the account's stored is_active value and
the rest of the accounts table - unchanged, whatever the account's current
active state; with an invalid account_type the InvalidAccountType check
fires first instead. -/
theorem c1_update_account_deactivate_history (db : DB) (id : Int)
    (name t : String) (pid : Option Int) (ht : t ∈ validTypes)
    (hh : ∃ tx ∈ db.transactions,
      tx.debit_account_id = id ∨ tx.credit_account_id = id) :
    update_account db id name t pid false = (.error cannotDeactivateMsg, db) := by
  have hc : validTypes.contains t = true := by simpa using ht
  have hht : hasTransactions db id = true := by
    obtain ⟨tx, htx, hor⟩ := hh
    simp only [hasTransactions, List.any_eq_true]
    refine ⟨tx, htx, ?_⟩
    rcases hor with h | h <;> simp [h]
  simp [update_account, hc, hht]
  intro h2
  exact absurd ht h2

/-- Witness for c1_update_account_deactivate_history: deactivating account 1
of dbWithTxn, which the stored transaction debits, with the valid type
Asset. -/
theorem c1_update_account_deactivate_history_witness :
    "Asset" ∈ validTypes ∧
    (∃ tx ∈ dbWithTxn.transactions,
      tx.debit_account_id = 1 ∨ tx.credit_account_id = 1) ∧
    update_account dbWithTxn 1 "Cash" "Asset" none false =
      (.error cannotDeactivateMsg, dbWithTxn) :=
  ⟨by decide, by decide,
   c1_update_account_deactivate_history dbWithTxn 1 "Cash" "Asset" none
     (by decide) (by decide)⟩

/-! Claim C8. -/

/-- Counterexample to claim C8 as stated: renaming account 1 of dbWithTxn
to Bank, the name account 2 already carries, passes the type check and the
deactivation guard (is_active stays true), but the UPDATE itself then fails
on the schema's UNIQUE(name) constraint, so the call returns an error, not
a row count. -/
theorem c8_counterexample :
    "Asset" ∈ validTypes ∧
    ¬(hasTransactions dbWithTxn 1 = true ∧ true = false) ∧
    (update_account dbWithTxn 1 "Bank" "Asset" none true).1 =
      .error uniqueNameViolationMsg :=
  ⟨by decide, by decide, rfl⟩

/-- Claim C8 (amended): update_account with a valid account_type, when the
history-and-deactivation rule does not fire, returns the number of rows the
UPDATE matched as a success value provided the UPDATE violates no schema
constraint, that is, no account other than the matched one already carries
the new name and the supplied parent_id, if any, references an existing
account; and it returns 0 as a success value, not an error, whenever no
account with the given id exists, with no constraint proviso, since an
UPDATE matching no row checks no constraint. -/
theorem c8_update_account_row_count (db : DB) (id : Int) (name t : String)
    (pid : Option Int) (act : Bool) (ht : t ∈ validTypes)
    (hr : ¬(hasTransactions db id = true ∧ act = false)) :
    (updateNameConflict db id name = false →
      updateParentDangling db pid = false →
      (update_account db id name t pid act).1 =
        .ok (db.accounts.countP fun a => a.id == id)) ∧
    ((∀ a ∈ db.accounts, a.id ≠ id) →
      (update_account db id name t pid act).1 = .ok 0) := by
  have hc : validTypes.contains t = true := by simpa using ht
  have hg : (hasTransactions db id && !act) = false := by
    cases hht : hasTransactions db id <;> cases hact : act <;> simp_all
  constructor
  · intro hu hfk
    simp [update_account, hc, hg, ht, hu, hfk]
  · intro hnone
    have hm : (db.accounts.any fun a => a.id == id) = false := by
      simp only [List.any_eq_false]
      intro a ha
      simpa using hnone a ha
    have hz : (db.accounts.countP fun a => a.id == id) = 0 := by
      rw [List.countP_eq_zero]
      intro a ha
      simpa using hnone a ha
    simp [update_account, hc, hg, ht, hm, hz]

/-- Witness for c8_update_account_row_count: updating the nonexistent
account 5 on the empty store returns 0 as a success value, and a
constraint-clean rename of the sole account of dbCash returns its match
count 1. -/
theorem c8_update_account_row_count_witness :
    "Asset" ∈ validTypes ∧
    ¬(hasTransactions emptyDB 5 = true ∧ true = false) ∧
    (update_account emptyDB 5 "Cash" "Asset" none true).1 = .ok 0 ∧
    (update_account dbCash 1 "Till" "Asset" none true).1 = .ok 1 :=
  ⟨by decide, by decide,
   (c8_update_account_row_count emptyDB 5 "Cash" "Asset" none true
      (by decide) (by decide)).2 (by decide),
   (c8_update_account_row_count dbCash 1 "Till" "Asset" none true
      (by decide) (by decide)).1 (by decide) (by decide)⟩

/-! Claim C6. -/

/-- Claim C6: after a successful create_account returning an id, on any
store satisfying the AUTOINCREMENT freshness invariant, get_accounts
returns a collection in which exactly one account carries that id, and that
account has balance 0.0, is_active true, and the given name, type and
parent_id. -/
theorem c6_create_get_roundtrip (db : DB) (name t : String) (pid : Option Int)
    (newId : Int) (db2 : DB) (hf : FreshIds db)
    (h : create_account db name t pid = (.ok newId, db2)) :
    ((get_accounts db2).countP fun a => a.id == newId) = 1 ∧
    (∀ a ∈ get_accounts db2, a.id = newId →
      a.balance = 0 ∧ a.is_active = true ∧ a.name = name ∧
      a.account_type = t ∧ a.parent_id = pid) := by
  unfold create_account at h
  split at h
  · simp at h
  · split at h
    · simp at h
    · split at h
      · simp at h
      · simp only [Prod.mk.injEq, Except.ok.injEq] at h
        obtain ⟨hid, hdb⟩ := h
        subst hid
        subst hdb
        constructor
        · simp only [get_accounts, List.countP_append]
          have h0 : (db.accounts.countP fun a => a.id == db.nextId) = 0 := by
            rw [List.countP_eq_zero]
            intro a ha
            have := hf a ha
            simp only [beq_iff_eq]
            omega
          rw [h0]
          simp
        · intro a ha hid
          simp only [get_accounts, List.mem_append, List.mem_singleton] at ha
          rcases ha with ha | ha
          · have := hf a ha
            rw [hid] at this
            omega
          · subst ha
            exact ⟨rfl, rfl, rfl, rfl, rfl⟩

/-- Witness for c6_create_get_roundtrip: creating Cash on the empty store
yields id 1 and the store dbCash, where exactly one account carries id 1. -/
theorem c6_create_get_roundtrip_witness :
    FreshIds emptyDB ∧
    create_account emptyDB "Cash" "Asset" none = (.ok 1, dbCash) ∧
    ((get_accounts dbCash).countP fun a => a.id == (1 : Int)) = 1 :=
  ⟨freshIds_emptyDB, rfl,
   (c6_create_get_roundtrip emptyDB "Cash" "Asset" none 1 dbCash
      freshIds_emptyDB rfl).1⟩

/-! Claim C2. -/

/-- Claim C2: the db.rs migration engine is idempotent: after any successful
run yielding a state, running the engine again on that state (whatever the
script outcome would be) returns the very same state, i.e. the same schema
log and the same persisted counter as after the single run; and any counter
value at 1 or above makes the run a no-op that executes no script and
writes no counter. -/
theorem c2_migrations_idempotent (ok : Bool) (s s2 : MigState)
    (h : db_run_migrations ok s = .ok s2) :
    (∀ ok2 : Bool, db_run_migrations ok2 s2 = .ok s2) ∧
    (1 ≤ s.userVersion → s2 = s) := by
  unfold db_run_migrations at h
  split at h
  case isTrue hlt =>
    split at h
    · simp only [Except.ok.injEq] at h
      subst h
      constructor
      · intro ok2
        have hv : ¬ ((dbMaxMigrationVersion : Int) < 1) := by
          simp [dbMaxMigrationVersion, dbMigrationCount]
        simp [db_run_migrations, hv]
      · intro hge
        omega
    · exact absurd h (by simp)
  case isFalse hge =>
    simp only [Except.ok.injEq] at h
    subst h
    exact ⟨fun ok2 => by simp [db_run_migrations, hge], fun _ => rfl⟩

/-- Witness for c2_migrations_idempotent: a successful run on a fresh
database (counter 0) applies the single script and sets the counter to 1;
re-running from that state changes nothing. -/
theorem c2_migrations_idempotent_witness :
    db_run_migrations true { userVersion := 0, applied := [] } =
      .ok { userVersion := 1, applied := [0] } ∧
    ∀ ok2 : Bool,
      db_run_migrations ok2 { userVersion := 1, applied := [0] } =
        .ok { userVersion := 1, applied := [0] } :=
  ⟨rfl, (c2_migrations_idempotent true { userVersion := 0, applied := [] }
    { userVersion := 1, applied := [0] } rfl).1⟩

/-! Claim C7. -/

/-- Claim C7: a persisted counter strictly above the highest version in the
db.rs engine's known migration list makes the run succeed without error,
execute no migration script, and leave the counter (and the schema)
unchanged: all known migrations are treated as already satisfied. -/
theorem c7_newer_counter_noop (ok : Bool) (s : MigState)
    (h : dbMaxMigrationVersion < s.userVersion) :
    db_run_migrations ok s = .ok s := by
  have hv : ¬ (s.userVersion < 1) := by
    simp only [dbMaxMigrationVersion, dbMigrationCount] at h
    omega
  simp [db_run_migrations, hv]

/-- Witness for c7_newer_counter_noop: a counter of 5, above the engine's
highest known version 1, yields a successful no-op. -/
theorem c7_newer_counter_noop_witness :
    dbMaxMigrationVersion < (5 : Int) ∧
    db_run_migrations true { userVersion := 5, applied := [0] } =
      .ok { userVersion := 5, applied := [0] } :=
  ⟨by decide,
   c7_newer_counter_noop true { userVersion := 5, applied := [0] } (by decide)⟩

/-! Claim C9. -/

/-- Counterexample to claim C9 as stated: get_accounts's lock-acquisition
failure branch returns the raw error text itself, and create_account's
failing-INSERT branch embeds the storage error text verbatim in the message
it returns to the boundary caller. -/
theorem c9_counterexample :
    getAccountsLockErrMsg "lock poisoned" = "lock poisoned" ∧
    ContainsVerbatim (createInsertErrMsg "UNIQUE constraint failed: accounts.name")
      "UNIQUE constraint failed: accounts.name" := by
  refine ⟨rfl, "Failed to create account: ", "", ?_⟩
  rw [string_append_empty]
  rfl

/-- Claim C9 (amended): only create_account's lock-acquisition branch
returns a fixed generic message independent of the internal error text; the
failing-INSERT branch of create_account embeds the storage error text
verbatim after a fixed prefix, and the lock-acquisition branches of
get_accounts and update_account return the raw error text itself. -/
theorem c9_error_message_disposition (e : String) :
    createLockErrMsg e = "Database error. Please try again." ∧
    ContainsVerbatim (createInsertErrMsg e) e ∧
    ContainsVerbatim (getAccountsLockErrMsg e) e ∧
    updateAccountLockErrMsg e = e := by
  refine ⟨rfl, ⟨"Failed to create account: ", "", ?_⟩, ⟨"", "", ?_⟩, rfl⟩
  · rw [string_append_empty]
    rfl
  · rw [string_append_empty]
    rfl

/-! Claim C10. -/

/-- Claim C10: the is_active decoding of get_accounts yields true exactly
when the stored column value reads as the integer 1 or cannot be read at
all (the unwrap_or(1) default); any other readable integer decodes to
false, and an unreadable column still yields a decoded row rather than an
error, since decodeAccountRow is total. -/
theorem c10_is_active_decoding (r : RawAccountRow) :
    (decodeAccountRow r).is_active = true ↔
      (r.is_active_col = some 1 ∨ r.is_active_col = none) := by
  rcases hv : r.is_active_col with _ | k <;>
    simp [decodeAccountRow, decodeIsActive, hv]

end AccountingApp
